import Mathlib

set_option maxHeartbeats 1000000

/- Shallow embedding of the NES emulator core found in the repository source
   file (classes CPU6502, PPU2C02, APURP2A07 and the per-frame body of
   CatsNesEmulator.emulation_loop together with the memory effect of
   CatsNesEmulator.load_rom).

   Modelling conventions:
   - machine words are Nat (Python ints are unbounded; the source applies no
     masking, and neither do we);
   - the Python byte lists of fixed length (cpu.memory, ppu.vram, palette,
     frame_buffer, the APU channel lists) are total functions Nat -> Nat,
     since every run considered here indexes them in range; the ROM loader
     keeps List Nat because Python slice-assignment semantics (which can
     resize the list) matter there;
   - attribute accesses that Python would raise on (PPU2C02.write_toggle and
     PPU2C02.vram_address are never initialized in PPU2C02.__init__, and
     render_sprite_pixel is called but never defined) are modelled with
     Option: a none result is a Python runtime error;
   - the emulation loop runs on a worker thread guarded by self.running and
     self.paused; we model one frame of the loop body with running true and
     paused false throughout (the host does not stop mid-frame). -/

structure CPU6502 where
  pc : Nat
  sp : Nat
  a : Nat
  x : Nat
  y : Nat
  status : Nat
  cycles : Nat
  memory : Nat → Nat

namespace CPU6502

/-- Power-on state from CPU6502.__init__ (memory is 0x10000 zero bytes). -/
def init : CPU6502 :=
  { pc := 0, sp := 0xFD, a := 0, x := 0, y := 0, status := 0x24, cycles := 0,
    memory := fun _ => 0 }

/-- CPU6502.reset: pc is loaded little-endian from the reset vector at
    0xFFFC/0xFFFD; sp, status, a, x, y are reinitialized; memory and the
    cycle counter are untouched. -/
def reset (s : CPU6502) : CPU6502 :=
  { s with pc := s.memory 0xFFFC + 256 * s.memory 0xFFFD,
           sp := 0xFD, status := 0x24, a := 0, x := 0, y := 0 }

/-- CPU6502.set_flags: status := (status AND 0x7D) OR ((value == 0) shl 1)
    OR (value AND 0x80). -/
def set_flags (s : CPU6502) (value : Nat) : CPU6502 :=
  { s with status :=
      (s.status &&& 0x7D) ||| ((if value = 0 then 1 else 0) <<< 1) |||
        (value &&& 0x80) }

/-- CPU6502.execute_instruction: fetches the opcode byte at pc and advances
    pc past it; LDA immediate (0xA9), STA zero page (0x85) and NOP (0xEA)
    are the only opcodes with a branch, every other opcode falls through the
    if-chain with no further effect; the function always returns 2 as the
    cycle count. -/
def execute_instruction (s : CPU6502) : CPU6502 × Nat :=
  let opcode := s.memory s.pc
  let s1 : CPU6502 := { s with pc := s.pc + 1 }
  let s2 : CPU6502 :=
    if opcode = 0xA9 then
      let v := s1.memory s1.pc
      set_flags { s1 with a := v, pc := s1.pc + 1 } v
    else if opcode = 0x85 then
      let addr := s1.memory s1.pc
      { s1 with memory := fun q => if q = addr then s1.a else s1.memory q,
                pc := s1.pc + 1 }
    else if opcode = 0xEA then
      s1
    else
      s1
  (s2, 2)

end CPU6502

/-- CPU states reachable from power-on.  Besides CPU6502.reset and
    CPU6502.execute_instruction (the operations named by the claim) we also
    allow the host replacing the memory array with arbitrary byte contents,
    which is the only CPU mutation CatsNesEmulator.load_rom performs before
    calling reset; this only enlarges the set of reachable states. -/
inductive Reachable : CPU6502 → Prop where
  | power_on : Reachable CPU6502.init
  | do_reset {s : CPU6502} : Reachable s → Reachable (CPU6502.reset s)
  | do_step {s : CPU6502} :
      Reachable s → Reachable (CPU6502.execute_instruction s).1
  | do_load {s : CPU6502} (m : Nat → Nat) :
      (∀ i, m i < 256) → Reachable s → Reachable { s with memory := m }

structure PPU2C02 where
  vram : Nat → Nat
  palette : Nat → Nat
  control : Nat
  mask : Nat
  status : Nat
  scroll_x : Nat
  scroll_y : Nat
  scanline : Nat
  cycle : Nat
  frame_buffer : Nat → Nat × Nat × Nat
  write_toggle : Option Bool
  vram_address : Option Nat

namespace PPU2C02

/-- Power-on state from PPU2C02.__init__.  Note that __init__ assigns
    neither write_toggle nor vram_address: reading either attribute before
    it is first assigned raises AttributeError in Python, modelled here by
    the fields starting as none. -/
def init : PPU2C02 :=
  { vram := fun _ => 0, palette := fun _ => 0, control := 0, mask := 0,
    status := 0, scroll_x := 0, scroll_y := 0, scanline := 0, cycle := 0,
    frame_buffer := fun _ => (0, 0, 0),
    write_toggle := none, vram_address := none }

/-- PPU2C02.write_register.  The branches for 0x2005/0x2006/0x2007 read
    write_toggle and/or vram_address, so on a power-on PPU they raise
    AttributeError (result none).  Addresses with no branch fall through
    with no effect. -/
def write_register (p : PPU2C02) (address value : Nat) : Option PPU2C02 :=
  if address = 0x2000 then some { p with control := value }
  else if address = 0x2001 then some { p with mask := value }
  else if address = 0x2005 then
    match p.write_toggle with
    | none => none
    | some t =>
      let p1 := if t then { p with scroll_x := value }
                else { p with scroll_y := value }
      some { p1 with write_toggle := some (!t) }
  else if address = 0x2006 then
    match p.write_toggle with
    | none => none
    | some t =>
      match p.vram_address with
      | none => none
      | some va =>
        let p1 :=
          if t then { p with vram_address := some ((va &&& 0x00FF) ||| (value <<< 8)) }
          else { p with vram_address := some ((va &&& 0xFF00) ||| value) }
        some { p1 with write_toggle := some (!t) }
  else if address = 0x2007 then
    match p.vram_address with
    | none => none
    | some va =>
      if va < 0x4000 then
        some { p with
                 vram := fun q => if q = va then value else p.vram q,
                 vram_address :=
                   some (va + (if p.control &&& 0x04 = 0 then 1 else 32)) }
      else none
  else some p

/-- The 16-entry color list from PPU2C02.get_color. -/
def nes_colors : List (Nat × Nat × Nat) :=
  [(84, 84, 84), (0, 30, 116), (8, 16, 144), (48, 0, 136),
   (68, 0, 100), (92, 0, 48), (84, 4, 0), (60, 24, 0),
   (32, 42, 0), (8, 58, 0), (0, 64, 0), (0, 60, 0),
   (0, 50, 60), (0, 0, 0), (0, 0, 0), (0, 0, 0)]

/-- PPU2C02.get_color: indexes the 16-entry color list modulo 16. -/
def get_color (index : Nat) : Nat × Nat × Nat :=
  nes_colors.getD (index % 16) (0, 0, 0)

/-- PPU2C02.render_background_pixel: writes one framebuffer entry at
    scanline*256 + cycle from a nametable byte. -/
def render_background_pixel (p : PPU2C02) : PPU2C02 :=
  let tile_x := (p.scroll_x + p.cycle) / 8
  let tile_y := (p.scroll_y + p.scanline) / 8
  let tile_index := tile_y * 32 + tile_x
  let color_index := p.vram (0x2000 + tile_index) % 64
  { p with frame_buffer := fun i =>
      if i = p.scanline * 256 + p.cycle then get_color color_index
      else p.frame_buffer i }

/-- PPU2C02.render_scanline: when in the visible region, the background is
    drawn if mask bit 3 is set; if mask bit 4 is set the code then calls
    self.render_sprite_pixel(), a method that does not exist anywhere in the
    class, so Python raises AttributeError (modelled as none). -/
def render_scanline (p : PPU2C02) : Option PPU2C02 :=
  if p.scanline < 240 ∧ p.cycle < 256 then
    let p1 := if p.mask &&& 0x08 ≠ 0 then render_background_pixel p else p
    if p1.mask &&& 0x10 ≠ 0 then none else some p1
  else some p

end PPU2C02

structure APURP2A07 where
  pulse1 : Nat → Nat
  pulse2 : Nat → Nat
  triangle : Nat → Nat
  noise : Nat → Nat
  dmc : Nat → Nat

namespace APURP2A07

/-- Power-on state from APURP2A07.__init__ (all channel lists zeroed). -/
def init : APURP2A07 :=
  { pulse1 := fun _ => 0, pulse2 := fun _ => 0, triangle := fun _ => 0,
    noise := fun _ => 0, dmc := fun _ => 0 }

/-- APURP2A07.write_register: only 0x4000-0x4003 (pulse1), 0x4004-0x4007
    (pulse2) and 0x4008-0x400B (triangle) have branches; any other address
    falls through with no effect. -/
def write_register (ap : APURP2A07) (address value : Nat) : APURP2A07 :=
  if 0x4000 ≤ address ∧ address ≤ 0x4003 then
    { ap with pulse1 := fun i =>
        if i = address - 0x4000 then value else ap.pulse1 i }
  else if 0x4004 ≤ address ∧ address ≤ 0x4007 then
    { ap with pulse2 := fun i =>
        if i = address - 0x4004 then value else ap.pulse2 i }
  else if 0x4008 ≤ address ∧ address ≤ 0x400B then
    { ap with triangle := fun i =>
        if i = address - 0x4008 then value else ap.triangle i }
  else ap

end APURP2A07

/-- The CPU portion of one frame of CatsNesEmulator.emulation_loop:
    while cycles < 29781: cycles += cpu.execute_instruction().
    The loop is given as structural recursion on a fuel argument; fuel 29781
    is always sufficient because every call to execute_instruction returns 2
    (frame_loop_final_acc below shows the returned accumulator is 29782, so
    the recursion always stops because the while-condition turned false,
    never because fuel ran out). -/
def frame_loop : Nat → CPU6502 → Nat → CPU6502 × Nat
  | 0, s, acc => (s, acc)
  | fuel + 1, s, acc =>
    if acc < 29781 then
      let r := CPU6502.execute_instruction s
      frame_loop fuel r.1 (acc + r.2)
    else (s, acc)

/-- One iteration of the outer loop of CatsNesEmulator.emulation_loop (one
    frame): run the CPU until 29781 cycles have accumulated, then make the
    single per-frame call to ppu.render_scanline().  The PPU has no tick
    method and is not advanced during the CPU loop; the APU is not touched
    at all.  Result: (cpu after the frame, accumulated cycles, ppu after
    render_scanline); none if render_scanline raised. -/
def emulation_frame (c : CPU6502) (p : PPU2C02) :
    Option (CPU6502 × Nat × PPU2C02) :=
  let r := frame_loop 29781 c 0
  (PPU2C02.render_scanline p).map (fun p2 => (r.1, r.2, p2))

/-- Python slice assignment l[lo:hi] = xs on a list (may resize the list
    when hi - lo differs from xs.length, exactly as in Python). -/
def slice_assign (l : List Nat) (lo hi : Nat) (xs : List Nat) : List Nat :=
  l.take lo ++ xs ++ l.drop hi

/-- The memory effect of CatsNesEmulator.load_rom on cpu.memory: check the
    iNES magic, read the PRG bank count from header byte 4, slice the PRG
    data out of the image, and either mirror a single 16KB bank into
    0x8000-0xBFFF and 0xC000-0xFFFF or write the data once at 0x8000.
    A bad magic shows an error dialog and leaves memory untouched (none
    here).  rom and mem are kept as List Nat to preserve Python slice
    semantics. -/
def load_rom_mem (rom mem : List Nat) : Option (List Nat) :=
  if rom.take 4 = [0x4E, 0x45, 0x53, 0x1A] then
    let prg_rom_size := rom.getD 4 0 * 16384
    let prg_data := (rom.drop 16).take prg_rom_size
    if prg_data.length = 16384 then
      some (slice_assign (slice_assign mem 0x8000 0xC000 prg_data)
              0xC000 0x10000 prg_data)
    else
      some (slice_assign mem 0x8000 0x10000 prg_data)
  else none

/-- Memory image for the end-to-end program of claim C4: LDA #$05 ; STA $00 ;
    BRK placed at 0x8000, with the reset vector 0xFFFC/0xFFFD pointing at
    0x8000. -/
def mem_c4 : Nat → Nat := fun addr =>
  if addr = 0x8000 then 0xA9
  else if addr = 0x8001 then 0x05
  else if addr = 0x8002 then 0x85
  else if addr = 0x8003 then 0x00
  else if addr = 0x8004 then 0x00
  else if addr = 0xFFFD then 0x80
  else 0

/-- Power-on CPU with the claim C4 program loaded. -/
def cpu_c4 : CPU6502 := { CPU6502.init with memory := mem_c4 }

/-- The CPU state after reset and the first two instructions (LDA #$05 and
    STA $00) of the claim C4 program. -/
def cpu_c4_mid : CPU6502 :=
  { pc := 0x8004, sp := 0xFD, a := 0x05, x := 0, y := 0, status := 0x24,
    cycles := 0,
    memory := fun q => if q = 0 then 0x05 else mem_c4 q }

/-- A CPU whose memory is filled with the unimplemented opcode 0xFF. -/
def cpu_ff : CPU6502 := { CPU6502.init with memory := fun _ => 0xFF }

/-- A CPU about to execute LDA immediate (opcode 0xA9). -/
def cpu_lda : CPU6502 :=
  { CPU6502.init with memory := fun addr => if addr = 0 then 0xA9 else 0 }

/-- A CPU about to execute STA zero page (opcode 0x85). -/
def cpu_sta : CPU6502 :=
  { CPU6502.init with memory := fun addr => if addr = 0 then 0x85 else 0 }

/-- A concrete ROM image for exercising the loader: magic header, PRG bank
    count 1, eleven remaining header bytes, one 16KB PRG bank of 0x07
    bytes. -/
def rom_c7 : List Nat :=
  [0x4E, 0x45, 0x53, 0x1A, 1] ++ List.replicate 11 0 ++ List.replicate 16384 7

/-- A 64KB zeroed CPU memory list as at power-on. -/
def mem_c7 : List Nat := List.replicate 0x10000 0

theorem execute_instruction_cycles (s : CPU6502) :
    (CPU6502.execute_instruction s).2 = 2 := rfl

theorem frame_loop_final_acc (fuel : Nat) :
    ∀ (s : CPU6502) (acc : Nat), acc % 2 = 0 → acc ≤ 29782 →
      29782 ≤ acc + 2 * fuel → (frame_loop fuel s acc).2 = 29782 := by
  induction fuel with
  | zero =>
    intro s acc h2 hle hge
    show acc = 29782
    omega
  | succ fuel ih =>
    intro s acc h2 hle hge
    by_cases h : acc < 29781
    · have e : frame_loop (fuel + 1) s acc
          = frame_loop fuel (CPU6502.execute_instruction s).1
              (acc + (CPU6502.execute_instruction s).2) := by
        simp only [frame_loop, if_pos h]
      rw [e, execute_instruction_cycles]
      exact ih _ (acc + 2) (by omega) (by omega) (by omega)
    · have e : frame_loop (fuel + 1) s acc = (s, acc) := by
        simp only [frame_loop, if_neg h]
      rw [e]
      show acc = 29782
      omega

theorem frame_loop_inert (fuel : Nat) :
    ∀ (s : CPU6502) (acc : Nat),
      (∀ p, s.pc ≤ p → s.memory p ≠ 0xA9 ∧ s.memory p ≠ 0x85) →
      (frame_loop fuel s acc).1.a = s.a ∧
        ∀ q, (frame_loop fuel s acc).1.memory q = s.memory q := by
  induction fuel with
  | zero => intro s acc _; exact ⟨rfl, fun _ => rfl⟩
  | succ fuel ih =>
    intro s acc hm
    by_cases h : acc < 29781
    · have hop := hm s.pc (Nat.le_refl _)
      have estep : (CPU6502.execute_instruction s).1
          = { s with pc := s.pc + 1 } := by
        unfold CPU6502.execute_instruction
        simp only [if_neg hop.1, if_neg hop.2, ite_self]
      have e : frame_loop (fuel + 1) s acc
          = frame_loop fuel { s with pc := s.pc + 1 } (acc + 2) := by
        simp only [frame_loop, if_pos h, estep, execute_instruction_cycles]
      rw [e]
      refine ih _ (acc + 2) ?_
      intro p hp
      have hp1 : s.pc + 1 ≤ p := hp
      exact hm p (by omega)
    · have e : frame_loop (fuel + 1) s acc = (s, acc) := by
        simp only [frame_loop, if_neg h]
      rw [e]
      exact ⟨rfl, fun _ => rfl⟩

theorem execute_keeps_bit5 (s : CPU6502)
    (h : s.status.testBit 5 = true) :
    (CPU6502.execute_instruction s).1.status.testBit 5 = true := by
  have h125 : Nat.testBit 125 5 = true := by decide
  by_cases h1 : s.memory s.pc = 0xA9
  · simp only [CPU6502.execute_instruction, CPU6502.set_flags, if_pos h1]
    simp [Nat.testBit_lor, Nat.testBit_land, h, h125]
  · by_cases h2 : s.memory s.pc = 0x85
    · simp only [CPU6502.execute_instruction, if_neg h1, if_pos h2]
      exact h
    · simp only [CPU6502.execute_instruction, if_neg h1, if_neg h2, ite_self]
      exact h

theorem render_scanline_keeps_position (p q : PPU2C02)
    (h : PPU2C02.render_scanline p = some q) :
    q.scanline = p.scanline ∧ q.cycle = p.cycle := by
  unfold PPU2C02.render_scanline at h
  by_cases hv : p.scanline < 240 ∧ p.cycle < 256
  · rw [if_pos hv] at h
    dsimp only at h
    by_cases hbg : p.mask &&& 0x08 ≠ 0
    · rw [if_pos hbg] at h
      by_cases hsp : (PPU2C02.render_background_pixel p).mask &&& 0x10 ≠ 0
      · rw [if_pos hsp] at h; cases h
      · rw [if_neg hsp] at h
        obtain rfl := Option.some.inj h
        exact ⟨rfl, rfl⟩
    · rw [if_neg hbg] at h
      by_cases hsp : p.mask &&& 0x10 ≠ 0
      · rw [if_pos hsp] at h; cases h
      · rw [if_neg hsp] at h
        obtain rfl := Option.some.inj h
        exact ⟨rfl, rfl⟩
  · rw [if_neg hv] at h
    obtain rfl := Option.some.inj h
    exact ⟨rfl, rfl⟩

theorem render_scanline_of_mask_clear (p : PPU2C02)
    (h8 : p.mask &&& 0x08 = 0) (h10 : p.mask &&& 0x10 = 0) :
    PPU2C02.render_scanline p = some p := by
  unfold PPU2C02.render_scanline
  split
  · simp [h8, h10]
  · rfl

theorem getD_take_of_lt (l : List Nat) (k i d : Nat) (h : i < k) :
    (l.take k).getD i d = l.getD i d := by
  simp only [List.getD_eq_getElem?_getD, List.getElem?_take_of_lt h]

theorem getD_drop_add (l : List Nat) (k i d : Nat) :
    (l.drop k).getD i d = l.getD (k + i) d := by
  simp only [List.getD_eq_getElem?_getD, List.getElem?_drop]

theorem slice_assign_length (l xs : List Nat) (lo hi : Nat)
    (h1 : lo ≤ l.length) (h2 : hi ≤ l.length) :
    (slice_assign l lo hi xs).length = lo + xs.length + (l.length - hi) := by
  unfold slice_assign
  simp only [List.length_append, List.length_take, List.length_drop]
  omega

theorem slice_assign_getD_lo (l xs : List Nat) (lo hi n : Nat)
    (h1 : n < lo) (h2 : lo ≤ l.length) :
    (slice_assign l lo hi xs).getD n 0 = l.getD n 0 := by
  unfold slice_assign
  have hlt : (l.take lo).length = lo := by
    rw [List.length_take]; omega
  rw [List.append_assoc,
    List.getD_append _ _ _ _ (by rw [hlt]; omega)]
  exact getD_take_of_lt l lo n 0 h1

theorem slice_assign_getD_mid (l xs : List Nat) (lo hi n : Nat)
    (h1 : lo ≤ n) (h2 : n - lo < xs.length) (h3 : lo ≤ l.length) :
    (slice_assign l lo hi xs).getD n 0 = xs.getD (n - lo) 0 := by
  unfold slice_assign
  have hlt : (l.take lo).length = lo := by
    rw [List.length_take]; omega
  rw [List.append_assoc,
    List.getD_append_right _ _ _ _ (by rw [hlt]; omega), hlt,
    List.getD_append _ _ _ _ (by omega)]

/-- Claim C2 (code_bug evidence): executing the unimplemented opcode 0xFF
    from a CPU whose memory is all 0xFF is a silent no-op: the result is the
    unchanged state with pc advanced by 1 and the usual cycle count 2.  The
    return type of execute_instruction has no error channel at all, so no
    UnimplementedOpcode condition can be reported to the host. -/
theorem c2_silent_noop :
    CPU6502.execute_instruction cpu_ff
      = ({ cpu_ff with pc := cpu_ff.pc + 1 }, 2) := rfl

/-- Claim C3 counterexample: LDA immediate (documented base cost 2 cycles)
    and STA zero page (documented base cost 3 cycles) both make
    execute_instruction return 2, so the returned count does not carry the
    documented per-opcode cycle costs. -/
theorem c3_counterexample :
    (CPU6502.execute_instruction cpu_lda).2 = 2 ∧
      (CPU6502.execute_instruction cpu_sta).2 = 2 ∧
      (CPU6502.execute_instruction cpu_lda).2
        = (CPU6502.execute_instruction cpu_sta).2 :=
  ⟨rfl, rfl, rfl⟩

/-- Claim C3 (amended): execute_instruction returns the constant cycle count
    2 for every CPU state and hence for every opcode; there are no
    page-boundary or branch adjustments. -/
theorem c3_amended_constant_cycles (s : CPU6502) :
    (CPU6502.execute_instruction s).2 = 2 := rfl

/-- Claim C5 (code_bug evidence): the very first write to 0x2005 (and
    likewise to 0x2006) on a power-on PPU fails (AttributeError: the
    write-toggle flip-flop is never initialized in PPU2C02.__init__), rather
    than latching the high/coarse component. -/
theorem c5_first_write_crashes :
    PPU2C02.write_register PPU2C02.init 0x2005 0x00 = none ∧
      PPU2C02.write_register PPU2C02.init 0x2006 0x00 = none :=
  ⟨rfl, rfl⟩

/-- Claim C8: in every CPU state reachable from power-on by resets,
    instruction executions and host memory loads, bit 5 of the status
    register reads 1. -/
theorem c8_status_bit5 (s : CPU6502) (h : Reachable s) :
    s.status.testBit 5 = true := by
  induction h with
  | power_on => decide
  | do_reset _ _ =>
    show (0x24 : Nat).testBit 5 = true
    decide
  | do_step _ ih => exact execute_keeps_bit5 _ ih
  | do_load m _ _ ih => exact ih

/-- Witness for c8_status_bit5 at the power-on state. -/
theorem c8_status_bit5_witness : CPU6502.init.status.testBit 5 = true :=
  c8_status_bit5 CPU6502.init Reachable.power_on

/-- Claim C9: for every opcode byte not in the set 0xA9, 0x85, 0xEA,
    execute_instruction leaves a, x, y, sp, status and all 65536 memory
    cells unchanged, advances pc by exactly 1, and returns 2. -/
theorem c9_unknown_opcode_frame (s : CPU6502)
    (h : s.memory s.pc ≠ 0xA9 ∧ s.memory s.pc ≠ 0x85 ∧ s.memory s.pc ≠ 0xEA) :
    (CPU6502.execute_instruction s).1.a = s.a ∧
    (CPU6502.execute_instruction s).1.x = s.x ∧
    (CPU6502.execute_instruction s).1.y = s.y ∧
    (CPU6502.execute_instruction s).1.sp = s.sp ∧
    (CPU6502.execute_instruction s).1.status = s.status ∧
    (∀ i, i < 0x10000 → (CPU6502.execute_instruction s).1.memory i = s.memory i) ∧
    (CPU6502.execute_instruction s).1.pc = s.pc + 1 ∧
    (CPU6502.execute_instruction s).2 = 2 := by
  obtain ⟨h1, h2, h3⟩ := h
  have e : (CPU6502.execute_instruction s).1 = { s with pc := s.pc + 1 } := by
    unfold CPU6502.execute_instruction
    simp only [if_neg h1, if_neg h2, if_neg h3]
  rw [e]
  exact ⟨rfl, rfl, rfl, rfl, rfl, fun _ _ => rfl, rfl, rfl⟩

/-- Witness for c9_unknown_opcode_frame: the concrete state cpu_ff about to
    execute opcode 0xFF. -/
theorem c9_unknown_opcode_frame_witness :
    (CPU6502.execute_instruction cpu_ff).1.a = cpu_ff.a ∧
    (CPU6502.execute_instruction cpu_ff).1.x = cpu_ff.x ∧
    (CPU6502.execute_instruction cpu_ff).1.y = cpu_ff.y ∧
    (CPU6502.execute_instruction cpu_ff).1.sp = cpu_ff.sp ∧
    (CPU6502.execute_instruction cpu_ff).1.status = cpu_ff.status ∧
    (∀ i, i < 0x10000 →
      (CPU6502.execute_instruction cpu_ff).1.memory i = cpu_ff.memory i) ∧
    (CPU6502.execute_instruction cpu_ff).1.pc = cpu_ff.pc + 1 ∧
    (CPU6502.execute_instruction cpu_ff).2 = 2 :=
  c9_unknown_opcode_frame cpu_ff ⟨by decide, by decide, by decide⟩

/-- Claim C10: writes to any address in 0x400C-0x4017 fall through
    APURP2A07.write_register with no branch taken, leaving the whole APU
    state unchanged. -/
theorem c10_apu_ignores_high_registers (ap : APURP2A07) (address value : Nat)
    (hlo : 0x400C ≤ address) (hhi : address ≤ 0x4017) :
    APURP2A07.write_register ap address value = ap := by
  have n1 : ¬(0x4000 ≤ address ∧ address ≤ 0x4003) := by omega
  have n2 : ¬(0x4004 ≤ address ∧ address ≤ 0x4007) := by omega
  have n3 : ¬(0x4008 ≤ address ∧ address ≤ 0x400B) := by omega
  simp only [APURP2A07.write_register, if_neg n1, if_neg n2, if_neg n3]

/-- Witness for c10_apu_ignores_high_registers: writing 0xFF to the noise
    register 0x400C on the power-on APU. -/
theorem c10_apu_ignores_high_registers_witness :
    APURP2A07.write_register APURP2A07.init 0x400C 0xFF = APURP2A07.init :=
  c10_apu_ignores_high_registers APURP2A07.init 0x400C 0xFF
    (by decide) (by decide)

/-- Claim C1 counterexample: running one frame of the emulation loop from
    the power-on machine leaves the PPU at (scanline, cycle) = (0, 0) -- the
    loop stops after accumulating 29781 CPU cycles, not at the pre-render
    scanline 261, cycle 1, and the PPU is never ticked. -/
theorem c1_counterexample :
    (emulation_frame CPU6502.init PPU2C02.init).map
        (fun r => (r.2.2.scanline, r.2.2.cycle)) = some (0, 0)
      ∧ ((0, 0) : Nat × Nat) ≠ (261, 1) :=
  ⟨rfl, by decide⟩

/-- Claim C1 (amended): one frame of the emulation loop runs only the CPU,
    accumulating the constant per-instruction cycle count until the total
    reaches 29782 (the first value of at least 29781); the PictureUnit is
    never ticked during the loop (a single render_scanline call happens
    afterwards, and it preserves the (scanline, cycle) position whenever it
    returns), and the AudioUnit is not ticked at all (emulation_frame does
    not even take the APU as input). -/
theorem c1_amended_frame_shape (c : CPU6502) (p : PPU2C02) :
    emulation_frame c p
      = (PPU2C02.render_scanline p).map
          (fun q => ((frame_loop 29781 c 0).1, 29782, q))
    ∧ (PPU2C02.render_scanline p).map (fun q => (q.scanline, q.cycle))
      = (PPU2C02.render_scanline p).map (fun _ => (p.scanline, p.cycle)) := by
  constructor
  · unfold emulation_frame
    have hacc : (frame_loop 29781 c 0).2 = 29782 :=
      frame_loop_final_acc 29781 c 0 (by decide) (by decide) (by decide)
    dsimp only
    rw [hacc]
  · cases h : PPU2C02.render_scanline p with
    | none => rfl
    | some q =>
      obtain ⟨h1, h2⟩ := render_scanline_keeps_position p q h
      simp [h1, h2]

/-- Claim C6 counterexample: the power-on machine never writes the mask
    register, yet after one frame pixel 0 of the framebuffer is (0, 0, 0),
    the power-on value, while the color obtained by looking up palette
    index 0 is get_color 0 = (84, 84, 84). -/
theorem c6_counterexample :
    (emulation_frame CPU6502.init PPU2C02.init).map
        (fun r => r.2.2.frame_buffer 0) = some (0, 0, 0)
      ∧ PPU2C02.get_color (PPU2C02.init.palette 0) = (84, 84, 84)
      ∧ ((0, 0, 0) : Nat × Nat × Nat) ≠ (84, 84, 84) :=
  ⟨rfl, rfl, by decide⟩

/-- Claim C6 (amended): when the mask register keeps both rendering bits
    clear (as it does for every program, since the CPU of this code has no
    bus dispatch and so can never write a PPU register), the framebuffer
    after one frame is exactly the framebuffer the PPU started with -- at
    power-on, all (0, 0, 0), which is not the palette-index-0 color
    get_color 0 = (84, 84, 84). -/
theorem c6_amended_background (c : CPU6502) (p : PPU2C02)
    (h8 : p.mask &&& 0x08 = 0) (h10 : p.mask &&& 0x10 = 0) :
    (emulation_frame c p).map (fun r => r.2.2.frame_buffer)
        = some p.frame_buffer
      ∧ PPU2C02.get_color 0 = (84, 84, 84) := by
  constructor
  · unfold emulation_frame
    rw [render_scanline_of_mask_clear p h8 h10]
    rfl
  · rfl

/-- Witness for c6_amended_background at the power-on machine. -/
theorem c6_amended_background_witness :
    (emulation_frame CPU6502.init PPU2C02.init).map
        (fun r => r.2.2.frame_buffer)
        = some PPU2C02.init.frame_buffer
      ∧ PPU2C02.get_color 0 = (84, 84, 84) :=
  c6_amended_background CPU6502.init PPU2C02.init rfl rfl

theorem emulation_frame_def (c : CPU6502) (p : PPU2C02) :
    emulation_frame c p = (PPU2C02.render_scanline p).map
      (fun p2 => ((frame_loop 29781 c 0).1, (frame_loop 29781 c 0).2, p2)) := rfl

theorem frame_loop_unfold (f f' acc acc' : Nat) (s : CPU6502)
    (hf : f = f' + 1) (hacc : acc' = acc + 2) (h : acc < 29781) :
    frame_loop f s acc
      = frame_loop f' (CPU6502.execute_instruction s).1 acc' := by
  subst hf; subst hacc
  simp only [frame_loop, if_pos h, execute_instruction_cycles]

/-- Claim C4: with the program LDA 0x05 ; STA 0x00 ; BRK loaded at the
    address the reset vector points to, one frame of the emulation loop
    leaves memory cell 0x0000 = 0x05 and accumulator a = 0x05 (after the
    first two instructions, every later fetched byte is 0x00 or 0x80, both
    of which execute as no-ops, and pc never wraps past the memory end
    within the 14891 instructions of one frame). -/
theorem c4_end_to_end :
    ∃ cpu n ppu,
      emulation_frame (CPU6502.reset cpu_c4) PPU2C02.init = some (cpu, n, ppu)
        ∧ cpu.memory 0x0000 = 0x05 ∧ cpu.a = 0x05 := by
  have hmem : ∀ p, cpu_c4_mid.pc ≤ p →
      cpu_c4_mid.memory p ≠ 0xA9 ∧ cpu_c4_mid.memory p ≠ 0x85 := by
    intro p hp
    have hp4 : (0x8004 : Nat) ≤ p := hp
    show (if p = 0 then 0x05 else mem_c4 p) ≠ 0xA9 ∧
      (if p = 0 then 0x05 else mem_c4 p) ≠ 0x85
    unfold mem_c4
    split_ifs <;> omega
  have hmid : (CPU6502.execute_instruction
      (CPU6502.execute_instruction (CPU6502.reset cpu_c4)).1).1
        = cpu_c4_mid := by rfl
  obtain ⟨ha, hm⟩ := frame_loop_inert 29779 cpu_c4_mid 4 hmem
  refine ⟨(frame_loop 29781 (CPU6502.reset cpu_c4) 0).1,
    (frame_loop 29781 (CPU6502.reset cpu_c4) 0).2, PPU2C02.init, ?_, ?_, ?_⟩
  · rw [emulation_frame_def, render_scanline_of_mask_clear PPU2C02.init rfl rfl,
      Option.map_some']
  · rw [frame_loop_unfold 29781 29780 0 2 _ rfl rfl (by decide),
      frame_loop_unfold 29780 29779 2 4 _ rfl rfl (by decide), hmid, hm 0x0000]
    rfl
  · rw [frame_loop_unfold 29781 29780 0 2 _ rfl rfl (by decide),
      frame_loop_unfold 29780 29779 2 4 _ rfl rfl (by decide), hmid, ha]
    rfl

/-- Claim C7: loading an image whose header byte 4 equals 1 (one 16KB PRG
    bank, fully present) copies the bank to 0x8000-0xBFFF and mirrors the
    same bytes into 0xC000-0xFFFF: both reads return byte i of the bank
    (the bank is the image from offset 16 on). -/
theorem c7_prg_mirroring (rom mem : List Nat) (i : Nat)
    (hmagic : rom.take 4 = [0x4E, 0x45, 0x53, 0x1A])
    (hbank : rom.getD 4 0 = 1)
    (hlen : 0x4010 ≤ rom.length)
    (hmem : mem.length = 0x10000)
    (hi : i < 0x4000) :
    ∃ m, load_rom_mem rom mem = some m ∧
      m.getD (0x8000 + i) 0 = (rom.drop 16).getD i 0 ∧
      m.getD (0xC000 + i) 0 = (rom.drop 16).getD i 0 := by
  have hplen : ((rom.drop 16).take (rom.getD 4 0 * 16384)).length = 16384 := by
    rw [hbank, one_mul, List.length_take, List.length_drop]
    omega
  have hinner : (slice_assign mem 0x8000 0xC000
      ((rom.drop 16).take (rom.getD 4 0 * 16384))).length = 0x10000 := by
    rw [slice_assign_length mem ((rom.drop 16).take (rom.getD 4 0 * 16384))
      0x8000 0xC000 (by omega) (by omega), hplen, hmem]
  refine ⟨slice_assign (slice_assign mem 0x8000 0xC000
      ((rom.drop 16).take (rom.getD 4 0 * 16384))) 0xC000 0x10000
      ((rom.drop 16).take (rom.getD 4 0 * 16384)), ?_, ?_, ?_⟩
  · unfold load_rom_mem
    rw [if_pos hmagic]
    dsimp only
    rw [if_pos hplen]
  · have e1 : (slice_assign (slice_assign mem 0x8000 0xC000
        ((rom.drop 16).take (rom.getD 4 0 * 16384))) 0xC000 0x10000
        ((rom.drop 16).take (rom.getD 4 0 * 16384))).getD (0x8000 + i) 0
          = (slice_assign mem 0x8000 0xC000
              ((rom.drop 16).take (rom.getD 4 0 * 16384))).getD (0x8000 + i) 0 :=
      slice_assign_getD_lo _ _ 0xC000 0x10000 (0x8000 + i)
        (by omega) (by rw [hinner]; omega)
    have e2 : (slice_assign mem 0x8000 0xC000
        ((rom.drop 16).take (rom.getD 4 0 * 16384))).getD (0x8000 + i) 0
          = ((rom.drop 16).take (rom.getD 4 0 * 16384)).getD (0x8000 + i - 0x8000) 0 :=
      slice_assign_getD_mid mem _ 0x8000 0xC000 (0x8000 + i)
        (by omega) (by rw [hplen]; omega) (by omega)
    have e3 : ((rom.drop 16).take (rom.getD 4 0 * 16384)).getD i 0
        = (rom.drop 16).getD i 0 := by
      rw [hbank, one_mul]
      exact getD_take_of_lt _ _ _ _ (by omega)
    rw [e1, e2, show 0x8000 + i - 0x8000 = i from by omega, e3]
  · have f1 : (slice_assign (slice_assign mem 0x8000 0xC000
        ((rom.drop 16).take (rom.getD 4 0 * 16384))) 0xC000 0x10000
        ((rom.drop 16).take (rom.getD 4 0 * 16384))).getD (0xC000 + i) 0
          = ((rom.drop 16).take (rom.getD 4 0 * 16384)).getD (0xC000 + i - 0xC000) 0 :=
      slice_assign_getD_mid _ _ 0xC000 0x10000 (0xC000 + i)
        (by omega) (by rw [hplen]; omega) (by rw [hinner]; omega)
    have f2 : ((rom.drop 16).take (rom.getD 4 0 * 16384)).getD i 0
        = (rom.drop 16).getD i 0 := by
      rw [hbank, one_mul]
      exact getD_take_of_lt _ _ _ _ (by omega)
    rw [f1, show 0xC000 + i - 0xC000 = i from by omega, f2]

/-- Witness for c7_prg_mirroring: a concrete 16400-byte image with one 16KB
    bank of 0x07 bytes loaded over a zeroed 64KB memory, checked at offset
    i = 0. -/
theorem c7_prg_mirroring_witness :
    ∃ m, load_rom_mem rom_c7 mem_c7 = some m ∧
      m.getD (0x8000 + 0) 0 = (rom_c7.drop 16).getD 0 0 ∧
      m.getD (0xC000 + 0) 0 = (rom_c7.drop 16).getD 0 0 :=
  c7_prg_mirroring rom_c7 mem_c7 0 rfl rfl
    (by
      simp only [rom_c7, List.length_append, List.length_replicate,
        List.length_cons, List.length_nil]
      omega)
    (by simp only [mem_c7, List.length_replicate])
    (by decide)
